import Mathlib

/-!
Verification of the rewards-eligibility-oracle startup-safety core.

This file shallowly embeds the two startup subsystems of the repository:

* the Instance Lock (src/src/utils/lock_manager.py, class LockManager), and
* the Credential Resolver (class CredentialManager; its module is absent from
  the excerpt, so it is modelled from the spec and pinned where the
  repository's own tests in src/tests/test_configuration.py fix the behavior).

Python dictionaries are embedded as insertion-ordered association lists where
a later binding shadows an earlier one; the lock file is embedded as the list
of its newline-terminated lines (the values written by the code — a rendered
pid, a hostname and an ISO-8601 timestamp — contain no newline); fallible
operations return Except; mutation is explicit state passing.
-/

namespace RewardsOracle

/-- Python dict with String keys and values, as an insertion-ordered
association list; a later binding shadows an earlier one. -/
abbrev Dict := List (String × String)

/-- Lookup in a python dict: the most recently inserted binding for the key. -/
def dictGet (d : Dict) (k : String) : Option String :=
  (d.reverse.find? (fun p => p.1 == k)).map (fun p => p.2)

/-- Embedding of python `line.split("=", 1)` guarded by `"=" in line`
(lock_manager.py lines 170-173), on character lists: split at the first
occurrence of the character, or fail when there is none. -/
def splitKVAux : List Char → Option (List Char × List Char)
  | [] => none
  | c :: cs =>
    if c = '=' then some ([], cs)
    else
      match splitKVAux cs with
      | none => none
      | some kv => some (c :: kv.1, kv.2)

/-- Split a metadata line into key and value at the first `=`, failing when
the line contains no `=` (lock_manager.py lines 171-172). -/
def splitKV (line : String) : Option (String × String) :=
  match splitKVAux line.data with
  | none => none
  | some kv => some (String.mk kv.1, String.mk kv.2)

theorem splitKVAux_key_val (k v : List Char) (hk : '=' ∉ k) :
    splitKVAux (k ++ '=' :: v) = some (k, v) := by
  induction k with
  | nil => simp [splitKVAux]
  | cons c cs ih =>
    have hc : c ≠ '=' := fun h => hk (h ▸ List.mem_cons_self c cs)
    have hcs : '=' ∉ cs := fun h => hk (List.mem_cons_of_mem _ h)
    simp [splitKVAux, hc, ih hcs]

theorem splitKV_key_val (k v : String) (hk : '=' ∉ k.data) :
    splitKV (k ++ "=" ++ v) = some (k, v) := by
  cases k with
  | mk kd =>
    cases v with
    | mk vd =>
      show splitKV (String.mk ((kd ++ ['=']) ++ vd)) = _
      simp only [splitKV, String.mk]
      rw [List.append_assoc, List.singleton_append]
      rw [splitKVAux_key_val kd vd hk]

/-! ## Instance Lock (src/src/utils/lock_manager.py) -/

/-- Filesystem state for one lock path: the lock file's content as its list of
newline-terminated lines (none when the file does not exist), and the owner of
the OS-level flock on that path (the id of the holding handle, if any). -/
structure FsState where
  file : Option (List String)
  lockOwner : Option Nat
deriving DecidableEq, Repr

/-- Embedding of the LockManager handle (lock_manager.py lines 24-52): an
identity for the handle (distinguishing independent processes), the rendered
pid, hostname and timestamp its process would write as metadata, and whether
lock_file_handle is currently an open handle (not None). -/
structure LockManager where
  id : Nat
  pidStr : String
  hostname : String
  timestamp : String
  handleOpen : Bool
deriving DecidableEq, Repr

/-- Metadata string written by _write_lock_metadata (lock_manager.py lines
142-149), as its three newline-terminated lines. -/
def metadataLines (m : LockManager) : List String :=
  ["pid=" ++ m.pidStr, "hostname=" ++ m.hostname, "timestamp=" ++ m.timestamp]

/-- Embedding of get_lock_holder_info (lock_manager.py lines 155-179): none
when the lock file does not exist; otherwise the dict built by inserting, in
line order, key and value from every line that contains an `=`. -/
def get_lock_holder_info (fs : FsState) : Option Dict :=
  match fs.file with
  | none => none
  | some lines => some (lines.filterMap splitKV)

/-- The `open(self.lock_file_path, "w")` step of __enter__ (lock_manager.py
line 70): create the lock file or truncate it to empty. -/
def openTruncate (fs : FsState) : FsState :=
  { fs with file := some [] }

/-- Failure raised by __enter__ on contention: LockAcquisitionError carrying
the best-effort holder info interpolated into its message (line 84). -/
inductive AcqError where
  | contention (holderInfo : Option Dict)
deriving DecidableEq, Repr

deriving instance DecidableEq for Except

/-- Result of one __enter__ call: the outcome, the manager's post-state and
the filesystem post-state. -/
structure EnterResult where
  outcome : Except AcqError Unit
  mgr : LockManager
  fs : FsState
deriving DecidableEq, Repr

/-- Embedding of LockManager.__enter__ (lock_manager.py lines 55-103):
create the parent directory (no-op here), open the lock file in truncating
write mode, then attempt the non-blocking exclusive flock.  On success, write
the pid, hostname, timestamp metadata and flush.  On contention
(BlockingIOError), read best-effort holder info from the (already truncated)
file, close the handle, and fail with LockAcquisitionError. -/
def enter (fs : FsState) (m : LockManager) : EnterResult :=
  let fs1 := openTruncate fs
  let m1 := { m with handleOpen := true }
  match fs1.lockOwner with
  | none =>
    { outcome := .ok ()
      mgr := m1
      fs := { fs1 with lockOwner := some m.id, file := some (metadataLines m) } }
  | some _ =>
    let info := get_lock_holder_info fs1
    { outcome := .error (.contention info)
      mgr := { m1 with handleOpen := false }
      fs := fs1 }

/-- Embedding of LockManager.__exit__ (lock_manager.py lines 106-136): when
the handle is open, unlock the flock and close the handle; any secondary
error while releasing (modelled by unlockRaises) is caught and only logged,
leaving the handle as it was.  Always returns False (the Bool component) so
that an exception from the protected region propagates. -/
def exitCM (fs : FsState) (m : LockManager) (unlockRaises : Bool) :
    FsState × LockManager × Bool :=
  if m.handleOpen then
    if unlockRaises then (fs, m, false)
    else
      ({ fs with lockOwner := if fs.lockOwner = some m.id then none else fs.lockOwner },
       { m with handleOpen := false }, false)
  else (fs, m, false)

/-! ## Credential Resolver (class CredentialManager)

The module defining CredentialManager is absent from the excerpt; only its
tests (src/tests/test_configuration.py) are present.  The definitions below
are therefore modelled from the spec, and where the repository's tests pin a
behavior they follow the tests. -/

/-- Modelled from the spec: the raw credential-input string of ParseAndValidate,
abstracting the JSON parsing step (python json.loads) as either a string that
fails to parse or an already-parsed flat mapping of string fields. -/
inductive CredInput where
  | malformed (raw : String)
  | parsed (fields : Dict)
deriving DecidableEq, Repr

/-- Modelled from the spec: the failures of the Credential Resolver, each
carrying what its python ValueError message is built from.  The sdkError case
is an underlying SDK exception propagated verbatim, which the test
test_setup_authorized_user_propagates_sdk_error shows to escape from the
authorized_user construction wrapper. -/
inductive CredError where
  | invalidJson
  | unsupportedType
  | incomplete (t : String)
  | invalidVariant (v : String)
  | sdkError (msg : String)
  | adcFailure
deriving DecidableEq, Repr

/-- Message of each Credential Resolver error, following the spec's wording
and the exact strings asserted by the tests. -/
def errMessage : CredError → String
  | .invalidJson => "Invalid credentials JSON format"
  | .unsupportedType => "Unsupported credential type"
  | .incomplete t => "Incomplete " ++ t ++ " credentials"
  | .invalidVariant v => "Invalid " ++ v ++ " credentials"
  | .sdkError msg => msg
  | .adcFailure =>
      "Failed to load Google Cloud credentials. Check GOOGLE_APPLICATION_CREDENTIALS configuration"

/-- Substring test used to state the sanitization properties: needle occurs
contiguously inside hay. -/
def strContains (hay needle : String) : Bool :=
  decide (List.IsInfix needle.data hay.data)

/-- Field is present with a non-empty value (service_account requirement). -/
def fieldNonEmpty (f : Dict) (k : String) : Bool :=
  match dictGet f k with
  | some v => v ≠ ""
  | none => false

/-- Field is present (authorized_user requirement). -/
def fieldPresent (f : Dict) (k : String) : Bool :=
  (dictGet f k).isSome

/-- Modelled from the spec: _parse_and_validate_credentials_json
(ParseAndValidate).  Fails with Invalid credentials JSON on parse failure;
requires a type field restricted to the two known variants, else fails with
Unsupported credential type; for service_account requires private_key,
client_email, project_id present and non-empty, for authorized_user requires
client_id, client_secret, refresh_token present, else fails with
Incomplete type credentials; on success returns the descriptor unchanged. -/
def parse_and_validate : CredInput → Except CredError Dict
  | .malformed _ => .error .invalidJson
  | .parsed f =>
    if dictGet f "type" = some "service_account" then
      if fieldNonEmpty f "private_key" && fieldNonEmpty f "client_email"
          && fieldNonEmpty f "project_id" then .ok f
      else .error (.incomplete "service_account")
    else if dictGet f "type" = some "authorized_user" then
      if fieldPresent f "client_id" && fieldPresent f "client_secret"
          && fieldPresent f "refresh_token" then .ok f
      else .error (.incomplete "authorized_user")
    else .error .unsupportedType

/-- Modelled from the spec and pinned by test_setup_service_account_fails_on_sdk_error:
_setup_service_account_credentials_from_dict hands the descriptor to the SDK
(whose behavior is the sdk argument: none is success, some msg an exception
with that text) and re-raises any SDK failure as the generic Invalid service
account credentials error, dropping the original text. -/
def setup_service_account_from_dict (_d : Dict) (sdk : Option String) :
    Except CredError Unit :=
  match sdk with
  | none => .ok ()
  | some _ => .error (.invalidVariant "service account")

/-- Modelled from the spec and pinned by test_setup_authorized_user_propagates_sdk_error:
_setup_user_credentials_from_dict is a thin wrapper that does not catch the
SDK failure, so the underlying exception propagates with its original text. -/
def setup_user_from_dict (_d : Dict) (sdk : Option String) :
    Except CredError Unit :=
  match sdk with
  | none => .ok ()
  | some msg => .error (.sdkError msg)

/-- Python dict.clear() on the secret-bearing descriptor: every binding is
removed. -/
def clearDict (_d : Dict) : Dict := []

/-- Modelled from the spec: the configuration input inspected by the
Credential Resolver, as read from GOOGLE_APPLICATION_CREDENTIALS: absent,
an inline-JSON-looking string (parsed or not), or a filesystem path together
with whether a file exists there. -/
inductive ConfigInput where
  | absent
  | jsonLike (c : CredInput)
  | path (p : String) (hExists : Bool)
deriving DecidableEq, Repr

/-- Modelled from the spec: setup_google_credentials.  Absent input or a
file-path input only logs a warning and succeeds.  Inline JSON is parsed and
validated, then dispatched by variant to the construction helper; in a
finally-equivalent block the descriptor is cleared before returning, on both
the success and the failure path.  Returns the outcome together with the
descriptor mapping as it stands when control returns. -/
def setup_google_credentials (input : ConfigInput) (sdkSA sdkAU : Option String) :
    Except CredError Unit × Dict :=
  match input with
  | .absent => (.ok (), [])
  | .path _ _ => (.ok (), [])
  | .jsonLike c =>
    match parse_and_validate c with
    | .error e => (.error e, [])
    | .ok fields =>
      let outcome : Except CredError Unit :=
        if dictGet fields "type" = some "authorized_user" then
          setup_user_from_dict fields sdkAU
        else setup_service_account_from_dict fields sdkSA
      (outcome, clearDict fields)

/-- Fixed staged-credential location under the well-known temporary
directory, per the spec's external-interface section. -/
def stagedCredPath : String := "/tmp/gcp-credentials.json"

/-- Result of prepare_credentials_for_adc: the outcome, the configuration
value after the call, the staged file (serialized descriptor and permission
mode) when one was written, and the post-state of any consumed descriptor. -/
structure AdcResult where
  outcome : Except CredError Unit
  config : ConfigInput
  staged : Option (Dict × Nat)
  descAfter : Option Dict
deriving DecidableEq, Repr

/-- Modelled from the spec: prepare_credentials_for_adc
(PrepareForAmbientDiscovery).  Inline JSON: run ParseAndValidate, write the
validated descriptor to the fixed private staging file with owner-only
permissions, repoint the configuration value at that file and clear the
descriptor; parse or validation failure propagates.  An existing file path is
left unchanged; a non-existent file path or an absent input logs a warning
and returns without raising. -/
def prepare_credentials_for_adc (input : ConfigInput) : AdcResult :=
  match input with
  | .absent =>
    { outcome := .ok (), config := .absent, staged := none, descAfter := none }
  | .path p hx =>
    { outcome := .ok (), config := .path p hx, staged := none, descAfter := none }
  | .jsonLike c =>
    match parse_and_validate c with
    | .error e =>
      { outcome := .error e, config := .jsonLike c, staged := none, descAfter := none }
    | .ok fields =>
      { outcome := .ok ()
        config := .path stagedCredPath true
        staged := some (fields, 0o600)
        descAfter := some (clearDict fields) }

/-! ## Concrete lock scenario used for witnesses and evaluation -/

/-- Initial filesystem state: no lock file, no flock holder. -/
def fsEmpty : FsState := { file := none, lockOwner := none }

/-- First handle: the process of pid 1234 on hostA. -/
def mgrA : LockManager :=
  { id := 1, pidStr := "1234", hostname := "hostA"
    timestamp := "2025-01-01T00:00:00+00:00", handleOpen := false }

/-- Second, independent handle: the process of pid 5678 on hostB. -/
def mgrB : LockManager :=
  { id := 2, pidStr := "5678", hostname := "hostB"
    timestamp := "2025-01-02T00:00:00+00:00", handleOpen := false }

/-! ## Helper lemmas about lock metadata parsing -/

theorem splitKV_pid (v : String) : splitKV ("pid=" ++ v) = some ("pid", v) := by
  have h : ("pid=" : String) = "pid" ++ "=" := rfl
  rw [h, splitKV_key_val]
  decide

theorem splitKV_hostname (v : String) :
    splitKV ("hostname=" ++ v) = some ("hostname", v) := by
  have h : ("hostname=" : String) = "hostname" ++ "=" := rfl
  rw [h, splitKV_key_val]
  decide

theorem splitKV_timestamp (v : String) :
    splitKV ("timestamp=" ++ v) = some ("timestamp", v) := by
  have h : ("timestamp=" : String) = "timestamp" ++ "=" := rfl
  rw [h, splitKV_key_val]
  decide

theorem metadataLines_parse (m : LockManager) :
    (metadataLines m).filterMap splitKV =
      [("pid", m.pidStr), ("hostname", m.hostname), ("timestamp", m.timestamp)] := by
  simp [metadataLines, List.filterMap, splitKV_pid, splitKV_hostname, splitKV_timestamp]

theorem dictGet_metadata_pid (m : LockManager) :
    dictGet [("pid", m.pidStr), ("hostname", m.hostname),
             ("timestamp", m.timestamp)] "pid" = some m.pidStr := by
  simp [dictGet, List.find?]

/-! ## Instance Lock claims -/

/-- C2: for every lock path, at most one handle holds the lock at a time:
while a handle holds it, an Acquire by an independent handle on the same path
fails with a contention error, and immediately after the holder releases, a
new Acquire on that path succeeds. -/
theorem lock_mutual_exclusion (fs : FsState) (A B : LockManager)
    (hfree : fs.lockOwner = none) (_hne : B.id ≠ A.id) :
    (enter fs A).outcome = .ok () ∧
    (∃ info, (enter (enter fs A).fs B).outcome = .error (.contention info)) ∧
    (enter (exitCM (enter fs A).fs (enter fs A).mgr false).1 B).outcome = .ok () := by
  refine ⟨?_, ?_, ?_⟩ <;>
    simp [enter, openTruncate, exitCM, get_lock_holder_info, hfree]

/-- Witness for C2: the concrete two-handle scenario of the test suite. -/
theorem lock_mutual_exclusion_witness :
    fsEmpty.lockOwner = none ∧ mgrB.id ≠ mgrA.id ∧
    ((enter fsEmpty mgrA).outcome = .ok () ∧
     (∃ info, (enter (enter fsEmpty mgrA).fs mgrB).outcome = .error (.contention info)) ∧
     (enter (exitCM (enter fsEmpty mgrA).fs (enter fsEmpty mgrA).mgr false).1
        mgrB).outcome = .ok ()) :=
  ⟨rfl, by decide, lock_mutual_exclusion fsEmpty mgrA mgrB rfl (by decide)⟩

/-- C8: after every successful acquisition the lock file holds exactly three
newline-terminated key=value lines (pid, hostname, timestamp), with the pid
value equal to the acquiring process's own identifier. -/
theorem lock_file_metadata_after_acquisition (fs : FsState) (m : LockManager)
    (hfree : fs.lockOwner = none) :
    (enter fs m).outcome = .ok () ∧
    (enter fs m).fs.file = some (metadataLines m) ∧
    (metadataLines m).length = 3 ∧
    (∀ l ∈ metadataLines m, (splitKV l).isSome = true) ∧
    get_lock_holder_info (enter fs m).fs =
      some [("pid", m.pidStr), ("hostname", m.hostname), ("timestamp", m.timestamp)] ∧
    dictGet [("pid", m.pidStr), ("hostname", m.hostname),
             ("timestamp", m.timestamp)] "pid" = some m.pidStr := by
  refine ⟨?_, ?_, ?_, ?_, ?_, dictGet_metadata_pid m⟩
  · simp [enter, openTruncate, hfree]
  · simp [enter, openTruncate, hfree]
  · simp [metadataLines]
  · intro l hl
    simp only [metadataLines, List.mem_cons, List.not_mem_nil, or_false] at hl
    rcases hl with h | h | h <;> subst h <;>
      simp [splitKV_pid, splitKV_hostname, splitKV_timestamp]
  · simp [enter, openTruncate, hfree, get_lock_holder_info, metadataLines_parse]

/-- Witness for C8: the concrete acquisition by the pid-1234 handle. -/
theorem lock_file_metadata_witness :
    fsEmpty.lockOwner = none ∧
    (enter fsEmpty mgrA).outcome = .ok () ∧
    (enter fsEmpty mgrA).fs.file = some (metadataLines mgrA) ∧
    dictGet [("pid", mgrA.pidStr), ("hostname", mgrA.hostname),
             ("timestamp", mgrA.timestamp)] "pid" = some mgrA.pidStr :=
  ⟨rfl, (lock_file_metadata_after_acquisition fsEmpty mgrA rfl).1,
   (lock_file_metadata_after_acquisition fsEmpty mgrA rfl).2.1,
   (lock_file_metadata_after_acquisition fsEmpty mgrA rfl).2.2.2.2.2⟩

/-- C7: get_lock_holder_info on a lock held by another handle (which wrote
its metadata at acquisition) returns a mapping whose pid entry is the
holder's identifier; on a non-existent lock file it returns none rather than
raising. -/
theorem get_lock_holder_info_spec (fs : FsState) (A : LockManager)
    (hfree : fs.lockOwner = none) :
    (∃ d, get_lock_holder_info (enter fs A).fs = some d ∧
      dictGet d "pid" = some A.pidStr) ∧
    (∀ fs2 : FsState, fs2.file = none → get_lock_holder_info fs2 = none) := by
  constructor
  · refine ⟨[("pid", A.pidStr), ("hostname", A.hostname), ("timestamp", A.timestamp)],
      ?_, dictGet_metadata_pid A⟩
    simp [enter, openTruncate, hfree, get_lock_holder_info, metadataLines_parse]
  · intro fs2 h
    simp [get_lock_holder_info, h]

/-- Witness for C7: holder info read by a second handle while the pid-1234
handle holds the lock, and on the initial state with no lock file. -/
theorem get_lock_holder_info_witness :
    (∃ d, get_lock_holder_info (enter fsEmpty mgrA).fs = some d ∧
      dictGet d "pid" = some mgrA.pidStr) ∧
    get_lock_holder_info fsEmpty = none :=
  ⟨(get_lock_holder_info_spec fsEmpty mgrA rfl).1,
   (get_lock_holder_info_spec fsEmpty mgrA rfl).2 fsEmpty rfl⟩

/-- C5: every Acquire attempt opens the lock file in truncating write mode
before attempting the OS-level lock: the attempt behaves exactly as if run
from the truncated state, whose file is empty, and a failing attempt leaves
the lock file empty of the previously written holder metadata. -/
theorem acquire_truncates_before_flock (fs : FsState) (m : LockManager) :
    (openTruncate fs).file = some [] ∧
    enter fs m = enter (openTruncate fs) m ∧
    (∀ k, fs.lockOwner = some k →
      (enter fs m).fs.file = some [] ∧
      (enter fs m).outcome = .error (.contention (some []))) := by
  refine ⟨rfl, rfl, ?_⟩
  intro k hk
  constructor <;> simp [enter, openTruncate, get_lock_holder_info, hk]

/-- Witness for C5: the pid-5678 handle's failed attempt against the held
lock erases the pid-1234 holder's metadata. -/
theorem acquire_truncates_witness :
    (enter fsEmpty mgrA).fs.lockOwner = some mgrA.id ∧
    (enter (enter fsEmpty mgrA).fs mgrB).fs.file = some [] ∧
    (enter (enter fsEmpty mgrA).fs mgrB).outcome = .error (.contention (some [])) := by
  have h := (acquire_truncates_before_flock (enter fsEmpty mgrA).fs mgrB).2.2
    mgrA.id (by decide)
  exact ⟨by decide, h.1, h.2⟩

/-- C10: exiting the context manager always returns False so an exception
from the protected region propagates; releasing a never-acquired or
already-released handle is a no-op, also when the OS-level unlock raises a
secondary error (which is only logged, never propagated); and a release
followed by another release leaves everything unchanged. -/
theorem release_idempotent_never_raises (fs : FsState) (m : LockManager) (uR : Bool) :
    (exitCM fs m uR).2.2 = false ∧
    (m.handleOpen = false → exitCM fs m uR = (fs, m, false)) ∧
    exitCM (exitCM fs m false).1 (exitCM fs m false).2.1 uR =
      ((exitCM fs m false).1, (exitCM fs m false).2.1, false) := by
  refine ⟨?_, ?_, ?_⟩
  · cases hO : m.handleOpen <;> cases uR <;> simp [exitCM, hO]
  · intro h
    simp [exitCM, h]
  · cases hO : m.handleOpen <;> cases uR <;> simp [exitCM, hO]

/-- Witness for C10: releasing the never-acquired pid-1234 handle is a no-op
even when the OS-level unlock would raise. -/
theorem release_idempotent_witness :
    mgrA.handleOpen = false ∧ exitCM fsEmpty mgrA true = (fsEmpty, mgrA, false) :=
  ⟨rfl, (release_idempotent_never_raises fsEmpty mgrA true).2.1 rfl⟩

/-- C1: evaluation of the code at the failing input.  After the pid-1234
handle acquires and writes its metadata, a second handle's failed Acquire
raises a contention error whose holder info is the empty mapping — the
attempt's own truncating open erased the holder's pid, hostname and
timestamp before they were read — while the file handle opened during the
failed attempt is indeed closed. -/
theorem contention_error_lacks_holder_metadata :
    (enter fsEmpty mgrA).outcome = .ok () ∧
    get_lock_holder_info (enter fsEmpty mgrA).fs =
      some [("pid", "1234"), ("hostname", "hostA"),
            ("timestamp", "2025-01-01T00:00:00+00:00")] ∧
    (enter (enter fsEmpty mgrA).fs mgrB).outcome = .error (.contention (some [])) ∧
    dictGet [] "pid" = none ∧
    (enter (enter fsEmpty mgrA).fs mgrB).mgr.handleOpen = false := by
  decide

/-! ## Credential Resolver claims -/

/-- Claim-side reading of a required field being present with a non-empty
value in a descriptor. -/
def presentNonEmpty (f : Dict) (k : String) : Prop :=
  dictGet f k ≠ none ∧ dictGet f k ≠ some ""

/-- Claim-side reading of a required field being present in a descriptor. -/
def present (f : Dict) (k : String) : Prop :=
  dictGet f k ≠ none

/-- Claim-side reading of a valid service_account descriptor: type
discriminant with private_key, client_email and project_id present and
non-empty. -/
def validServiceAccount (f : Dict) : Prop :=
  dictGet f "type" = some "service_account" ∧
  presentNonEmpty f "private_key" ∧
  presentNonEmpty f "client_email" ∧
  presentNonEmpty f "project_id"

/-- Claim-side reading of a valid authorized_user descriptor: type
discriminant with client_id, client_secret and refresh_token present. -/
def validAuthorizedUser (f : Dict) : Prop :=
  dictGet f "type" = some "authorized_user" ∧
  present f "client_id" ∧
  present f "client_secret" ∧
  present f "refresh_token"

instance (f : Dict) (k : String) : Decidable (presentNonEmpty f k) := by
  unfold presentNonEmpty
  infer_instance

instance (f : Dict) (k : String) : Decidable (present f k) := by
  unfold present
  infer_instance

theorem parse_and_validate_parsed (f : Dict) :
    parse_and_validate (.parsed f) =
      if dictGet f "type" = some "service_account" then
        if fieldNonEmpty f "private_key" && fieldNonEmpty f "client_email"
            && fieldNonEmpty f "project_id" then .ok f
        else .error (.incomplete "service_account")
      else if dictGet f "type" = some "authorized_user" then
        if fieldPresent f "client_id" && fieldPresent f "client_secret"
            && fieldPresent f "refresh_token" then .ok f
        else .error (.incomplete "authorized_user")
      else .error .unsupportedType := rfl

theorem fieldNonEmpty_iff (f : Dict) (k : String) :
    fieldNonEmpty f k = true ↔ presentNonEmpty f k := by
  unfold fieldNonEmpty presentNonEmpty
  cases h : dictGet f k with
  | none => simp
  | some v => simp

theorem fieldPresent_iff (f : Dict) (k : String) :
    fieldPresent f k = true ↔ present f k := by
  unfold fieldPresent present
  cases h : dictGet f k with
  | none => simp
  | some v => simp

/-- C4: ParseAndValidate succeeds, returning the descriptor (hence with type
preserved), exactly when the input parses and is a complete service_account
or authorized_user descriptor; a parse failure raises Invalid credentials
JSON with a message that is a constant carrying no fragment of the raw
input; an unknown or missing type raises Unsupported credential type; and
missing required fields raise Incomplete credentials naming the declared
type. -/
theorem parse_and_validate_characterization :
    (∀ raw, parse_and_validate (.malformed raw) = .error .invalidJson) ∧
    errMessage .invalidJson = "Invalid credentials JSON format" ∧
    (∀ f : Dict, parse_and_validate (.parsed f) = .ok f ↔
      validServiceAccount f ∨ validAuthorizedUser f) ∧
    (∀ f g : Dict, parse_and_validate (.parsed f) = .ok g → g = f) ∧
    (∀ f : Dict,
      (dictGet f "type" = some "service_account" → ¬ validServiceAccount f →
        parse_and_validate (.parsed f) = .error (.incomplete "service_account")) ∧
      (dictGet f "type" = some "authorized_user" → ¬ validAuthorizedUser f →
        parse_and_validate (.parsed f) = .error (.incomplete "authorized_user")) ∧
      (dictGet f "type" ≠ some "service_account" →
        dictGet f "type" ≠ some "authorized_user" →
        parse_and_validate (.parsed f) = .error .unsupportedType)) ∧
    (∀ t, errMessage (.incomplete t) = "Incomplete " ++ t ++ " credentials") := by
  refine ⟨fun _ => rfl, rfl, ?_, ?_, ?_, fun t => rfl⟩
  · intro f
    rw [parse_and_validate_parsed]
    split_ifs with h1 h2 h3 h4
    · simp only [Except.ok.injEq]
      constructor
      · intro _
        left
        simp only [Bool.and_eq_true, fieldNonEmpty_iff] at h2
        exact ⟨h1, h2.1.1, h2.1.2, h2.2⟩
      · intro _
        trivial
    · constructor
      · intro h
        exact absurd h (by simp)
      · rintro (⟨-, hpk, hce, hpi⟩ | ⟨ht, -⟩)
        · exact absurd (by
            simp only [Bool.and_eq_true, fieldNonEmpty_iff]
            exact ⟨⟨hpk, hce⟩, hpi⟩) h2
        · exact absurd ht (h1 ▸ by simp_all)
    · simp only [Except.ok.injEq]
      constructor
      · intro _
        right
        simp only [Bool.and_eq_true, fieldPresent_iff] at h4
        exact ⟨h3, h4.1.1, h4.1.2, h4.2⟩
      · intro _
        trivial
    · constructor
      · intro h
        exact absurd h (by simp)
      · rintro (⟨ht, -⟩ | ⟨-, hci, hcs, hrt⟩)
        · exact absurd ht h1
        · exact absurd (by
            simp only [Bool.and_eq_true, fieldPresent_iff]
            exact ⟨⟨hci, hcs⟩, hrt⟩) h4
    · constructor
      · intro h
        exact absurd h (by simp)
      · rintro (⟨ht, -⟩ | ⟨ht, -⟩)
        · exact absurd ht h1
        · exact absurd ht h3
  · intro f g h
    rw [parse_and_validate_parsed] at h
    split_ifs at h <;> simp_all
  · intro f
    refine ⟨?_, ?_, ?_⟩
    · intro ht hnv
      rw [parse_and_validate_parsed, if_pos ht]
      rw [if_neg ?_]
      intro hcond
      simp only [Bool.and_eq_true, fieldNonEmpty_iff] at hcond
      exact hnv ⟨ht, hcond.1.1, hcond.1.2, hcond.2⟩
    · intro ht hnv
      have hne : dictGet f "type" ≠ some "service_account" := by
        rw [ht]
        simp
      rw [parse_and_validate_parsed, if_neg hne, if_pos ht]
      rw [if_neg ?_]
      intro hcond
      simp only [Bool.and_eq_true, fieldPresent_iff] at hcond
      exact hnv ⟨ht, hcond.1.1, hcond.1.2, hcond.2⟩
    · intro h1 h2
      rw [parse_and_validate_parsed, if_neg h1, if_neg h2]

/-- Descriptor used by the witnesses: the test suite's complete
authorized_user credential mapping. -/
def auFields : Dict :=
  [("type", "authorized_user"), ("client_id", "ci"),
   ("client_secret", "cs"), ("refresh_token", "rt")]

/-- Descriptor used by the witnesses: the test suite's complete
service_account credential mapping. -/
def saFields : Dict :=
  [("type", "service_account"), ("private_key", "pk"),
   ("client_email", "ce"), ("project_id", "pi")]

/-- Descriptor missing private_key, from the spec's scenario section. -/
def saIncomplete : Dict :=
  [("type", "service_account"), ("client_email", "ce"), ("project_id", "pi")]

/-- Witness for C4: the test suite's concrete inputs, one per outcome. -/
theorem parse_and_validate_witness :
    parse_and_validate (.malformed "{not valid json}") = .error .invalidJson ∧
    parse_and_validate (.parsed saFields) = .ok saFields ∧
    parse_and_validate (.parsed auFields) = .ok auFields ∧
    parse_and_validate (.parsed saIncomplete) = .error (.incomplete "service_account") ∧
    parse_and_validate (.parsed [("type", "unsupported")]) = .error .unsupportedType := by
  refine ⟨parse_and_validate_characterization.1 "{not valid json}", ?_, ?_, ?_, ?_⟩
  · exact (parse_and_validate_characterization.2.2.1 saFields).2
      (Or.inl ⟨by decide, by decide, by decide, by decide⟩)
  · exact (parse_and_validate_characterization.2.2.1 auFields).2
      (Or.inr ⟨by decide, by decide, by decide, by decide⟩)
  · exact (parse_and_validate_characterization.2.2.2.2.1 saIncomplete).1 (by decide)
      (fun hv => hv.2.1.1 (by decide))
  · exact (parse_and_validate_characterization.2.2.2.2.1
      [("type", "unsupported")]).2.2 (by decide) (by decide)

/-- An SDK exception text that echoes a secret field of the authorized_user
descriptor, as in the leak tests. -/
def sdkMsgWithSecret : String := "SDK Error: refresh_token=rt"

/-- C3 counterexample: an underlying SDK failure while constructing
authorized_user credentials is not re-raised as the generic Invalid
authorized_user credentials error; the wrapper propagates the SDK exception
verbatim (pinned by test_setup_authorized_user_propagates_sdk_error), so the
surfaced message carries the SDK text together with the secret refresh_token
value it echoes. -/
theorem sdk_error_leaks_through_authorized_user :
    setup_user_from_dict auFields (some sdkMsgWithSecret) =
      .error (.sdkError sdkMsgWithSecret) ∧
    (setup_google_credentials (.jsonLike (.parsed auFields)) none
      (some sdkMsgWithSecret)).1 = .error (.sdkError sdkMsgWithSecret) ∧
    dictGet auFields "refresh_token" = some "rt" ∧
    strContains (errMessage (.sdkError sdkMsgWithSecret)) "rt" = true ∧
    strContains (errMessage (.sdkError sdkMsgWithSecret)) "SDK Error" = true ∧
    errMessage (.sdkError sdkMsgWithSecret) ≠
      "Invalid authorized user credentials" := by
  decide

/-- C3 amended: the sanitization contract holds for the service_account
construction path, whose failure message is the generic constant Invalid
service account credentials whatever the descriptor and the SDK exception
text, and for the ambient-discovery failure, whose message is a generic
constant; the authorized_user construction wrapper instead propagates the
underlying SDK exception text verbatim. -/
theorem sanitization_per_variant :
    (∀ (d : Dict) (m : String),
      setup_service_account_from_dict d (some m) =
        .error (.invalidVariant "service account")) ∧
    errMessage (.invalidVariant "service account") =
      "Invalid service account credentials" ∧
    errMessage .adcFailure =
      "Failed to load Google Cloud credentials. Check GOOGLE_APPLICATION_CREDENTIALS configuration" ∧
    (∀ (d : Dict) (m : String),
      setup_user_from_dict d (some m) = .error (.sdkError m) ∧
      errMessage (.sdkError m) = m) :=
  ⟨fun _ _ => rfl, rfl, rfl, fun _ _ => ⟨rfl, rfl⟩⟩

/-- C6: every descriptor consumed by credential construction or by
ambient-discovery staging is cleared (mutated to empty) before control
returns to the caller, on the success path and on the failure path alike. -/
theorem descriptor_cleared_on_both_paths :
    (∀ (c : CredInput) (sdkSA sdkAU : Option String) (f : Dict),
      parse_and_validate c = .ok f →
      (setup_google_credentials (.jsonLike c) sdkSA sdkAU).2 = []) ∧
    (∀ (c : CredInput) (f : Dict),
      parse_and_validate c = .ok f →
      (prepare_credentials_for_adc (.jsonLike c)).descAfter = some []) := by
  constructor
  · intro c sdkSA sdkAU f h
    simp [setup_google_credentials, h, clearDict]
  · intro c f h
    simp [prepare_credentials_for_adc, h, clearDict]

/-- Witness for C6: the complete authorized_user descriptor, consumed on a
failing construction path and on the staging path. -/
theorem descriptor_cleared_witness :
    parse_and_validate (.parsed auFields) = .ok auFields ∧
    (setup_google_credentials (.jsonLike (.parsed auFields)) none
      (some "SDK Error")).2 = [] ∧
    (prepare_credentials_for_adc (.jsonLike (.parsed auFields))).descAfter =
      some [] :=
  ⟨by decide,
   descriptor_cleared_on_both_paths.1 (.parsed auFields) none (some "SDK Error")
     auFields (by decide),
   descriptor_cleared_on_both_paths.2 (.parsed auFields) auFields (by decide)⟩

/-- C9: for a configuration input that is a filesystem path — existing or
not — or is absent, prepare_credentials_for_adc returns without raising, and
a path input never has its configuration value mutated. -/
theorem prepare_adc_graceful_on_path_or_absent (p : String) (hx : Bool) :
    (prepare_credentials_for_adc (.path p hx)).outcome = .ok () ∧
    (prepare_credentials_for_adc (.path p hx)).config = .path p hx ∧
    (prepare_credentials_for_adc .absent).outcome = .ok () :=
  ⟨rfl, rfl, rfl⟩

end RewardsOracle
